import Mathlib

/-!
Verification of the natural-language specification of the `understanding-mac`
system-statistics dashboard against a shallow Lean embedding of its Python
sources (`system_stats.py`, `utils.py`).

Modelling conventions:
* Python values flowing through the Snapshot are embedded as the inductive
  type `Value` (ints, floats, strings, booleans, None, lists, ordered dicts).
* Python floats are embedded as exact unnormalized fractions (`Frac`); every
  numeric literal appearing in the program and in the claims has an exact
  decimal value, and all arithmetic the program performs on such values
  (division by 1024, comparison with integer thresholds, two-decimal
  formatting) is exact scaling, so the fraction model agrees with IEEE
  doubles on every input considered here.
* Rich display objects (Panel, Table, Tree, ProgressBar, Text) are embedded
  as plain data (`Panel`, `Cell`, `RTree`, ...) recording the information the
  program puts into them; style strings and markup are abstracted away.
* Fallible external collaborators (psutil, GPUtil, cpuinfo, the OpenAI
  client) are embedded as explicit inputs carrying either a result value or
  the message of the exception they raise.
-/

namespace SystemStats

/-- Exact rational numbers as unnormalized fractions.  Used to embed Python
floats: every float literal in the program and the claims is an exact decimal,
and the arithmetic performed on them (scaling by 10, 100, 1/1024) is exact in
double precision, so this model coincides with Python float behaviour on the
values at stake.  The denominator is positive for every fraction the
development constructs. -/
structure Frac where
  num : Int
  den : Nat
deriving DecidableEq, Repr

/-- Embeds a Python int (or an int literal) as a fraction. -/
def Frac.ofInt (n : Int) : Frac := ⟨n, 1⟩

/-- Strict comparison of fractions by cross multiplication. -/
def Frac.blt (a b : Frac) : Bool := a.num * (b.den : Int) < b.num * (a.den : Int)

instance : LT Frac := ⟨fun a b => a.blt b = true⟩

instance (a b : Frac) : Decidable (a < b) :=
  inferInstanceAs (Decidable (_ = true))

/-- Floor of a fraction (floor division of numerator by denominator). -/
def Frac.floor (a : Frac) : Int := a.num.fdiv (a.den : Int)

/-- Multiplication by ten, exactly. -/
def Frac.mul10 (a : Frac) : Frac := ⟨a.num * 10, a.den⟩

/-- Division by 1024, exactly (this is what `bytes_value /= 1024` computes
for the binary values the byte formatter sees). -/
def Frac.div1024 (a : Frac) : Frac := ⟨a.num, a.den * 1024⟩

/-- The fractional part `a - floor a`, as a fraction over the same denominator. -/
def Frac.fracPart (a : Frac) : Frac := ⟨a.num - a.floor * (a.den : Int), a.den⟩

/-- Whether the fraction is exactly zero. -/
def Frac.isZero (a : Frac) : Bool := a.num = 0

/-- Whether the fraction is negative. -/
def Frac.isNeg (a : Frac) : Bool := a.num < 0

/-- Negation. -/
def Frac.neg (a : Frac) : Frac := ⟨-a.num, a.den⟩

/-- Round to the nearest integer, ties to even — the rounding used by CPython
when formatting with `.2f` (applied there to the scaled value). -/
def Frac.roundHalfEven (x : Frac) : Int :=
  let n := x.floor
  let f := x.fracPart
  if f.blt ⟨1, 2⟩ then n
  else if Frac.blt ⟨1, 2⟩ f then n + 1
  else if n % 2 = 0 then n else n + 1

/-- Left-pads the fractional part of a two-decimal rendering. -/
def pad2 (k : Nat) : String := if k < 10 then "0" ++ toString k else toString k

/-- Embedding of the Python format spec `.2f` applied to an exact value:
fixed two decimal places, round half to even. -/
def fmt2 (q : Frac) : String :=
  let m := Frac.roundHalfEven ⟨q.num * 100, q.den⟩
  let a := m.natAbs
  (if m < 0 then "-" else "") ++ toString (a / 100) ++ "." ++ pad2 (a % 100)

/-- Decimal digits of a fractional part in `[0, 1)`, most significant first,
stopping when the expansion terminates (all values the program prints have a
terminating expansion; the fuel bound is never reached for them). -/
def fracDigits : Frac → Nat → List Nat
  | _, 0 => []
  | f, Nat.succ fuel =>
    if f.isZero then []
    else
      let f10 := f.mul10
      let d := f10.floor
      d.toNat :: fracDigits (f10.fracPart) fuel

/-- Python str of a nonnegative float with a terminating short decimal
expansion: integer part, a dot, then the fractional digits (`.0` when the
value is integral).  This is exactly the CPython shortest-repr output for the
decimal-valued floats the program handles. -/
def pyFloatStrNN (q : Frac) : String :=
  let ip := q.floor
  let ds := fracDigits q.fracPart 17
  toString ip ++ "." ++ (if ds.isEmpty then "0" else String.join (ds.map toString))

/-- Python str of a float (sign handled separately). -/
def pyFloatStr (q : Frac) : String :=
  if q.isNeg then "-" ++ pyFloatStrNN q.neg else pyFloatStrNN q

/-- Embedding of `utils.format_bytes`: successive division by 1024 through the
unit list, two-decimal formatting when the value drops below 1024.  The list
argument is the remaining units of `['B', 'KB', 'MB', 'GB', 'TB']`. -/
def format_bytes_loop : Frac → List String → String
  | bytes_value, [] => fmt2 bytes_value ++ " PB"
  | bytes_value, unit :: units =>
    if bytes_value.blt (Frac.ofInt 1024) then fmt2 bytes_value ++ " " ++ unit
    else format_bytes_loop bytes_value.div1024 units

/-- Embedding of `utils.format_bytes` with its full unit list. -/
def format_bytes (bytes_value : Frac) : String :=
  format_bytes_loop bytes_value ["B", "KB", "MB", "GB", "TB"]

/-- The recursive type of Python values stored in a Snapshot: scalars,
ordered mappings (association lists preserve insertion order) and lists. -/
inductive Value where
  | int : Int → Value
  | float : Frac → Value
  | str : String → Value
  | bool : Bool → Value
  | none : Value
  | list : List Value → Value
  | dict : List (String × Value) → Value
deriving Repr

/-- The single-quote character used by Python `repr` of strings. -/
def sq : String := String.singleton (Char.ofNat 39)

mutual

/-- Python `str` (flag `false`) and `repr` (flag `true`) of a value; they
differ only on strings, which `repr` wraps in quotes.  Containers show their
elements with `repr`, exactly as Python does.  (String escaping inside
`repr` is not modelled; no string printed by the claims needs it.) -/
def pyShowV : Bool → Value → String
  | r, Value.str s => if r then sq ++ s ++ sq else s
  | _, Value.int n => toString n
  | _, Value.float q => pyFloatStr q
  | _, Value.bool b => if b then "True" else "False"
  | _, Value.none => "None"
  | _, Value.list l => "[" ++ String.intercalate ", " (pyShowL l) ++ "]"
  | _, Value.dict d => "\x7b" ++ String.intercalate ", " (pyShowD d) ++ "\x7d"

/-- Python repr of each element of a list. -/
def pyShowL : List Value → List String
  | [] => []
  | v :: vs => pyShowV true v :: pyShowL vs

/-- Python repr of each key-value pair of a dict. -/
def pyShowD : List (String × Value) → List String
  | [] => []
  | (k, v) :: ds => (sq ++ k ++ sq ++ ": " ++ pyShowV true v) :: pyShowD ds

end

/-- Python str of a Snapshot value. -/
def pyStr (v : Value) : String := pyShowV false v

/-- Embedding of `utils.format_value`.  Branch order follows the source:
floats print with two decimals; ints above 1024 go through the byte
formatter and other ints print plainly (Python booleans also reach the int
branch, with `str(value)` as the result either way, which is what the
`bool` arm returns); lists longer than five elements are truncated with a
count suffix; everything else falls back to `str(value)`. -/
def format_value : Value → String
  | Value.float q => fmt2 q
  | Value.int v => if 1024 < v then format_bytes (Frac.ofInt v) else toString v
  | Value.bool b => pyStr (Value.bool b)
  | Value.list l =>
    if 5 < l.length then
      String.intercalate ", " ((l.take 5).map pyStr) ++ " ... (" ++ toString l.length ++ " items)"
    else pyStr (Value.list l)
  | v => pyStr v

/-- Association-list lookup, the embedding of indexing into a Python dict
(first — and by dict uniqueness only — binding of the key). -/
def lookupKey : List (String × Value) → String → Option Value
  | [], _ => Option.none
  | (k, v) :: ds, key => if k = key then some v else lookupKey ds key

/-- Embedding of `d.get(key, default)`. -/
def pyGet (d : List (String × Value)) (key : String) (dflt : Value) : Value :=
  match lookupKey d key with
  | some v => v
  | Option.none => dflt

/-- Python `str.capitalize`: first character uppercased, the rest lowercased. -/
def pyCapitalize (s : String) : String :=
  match s.toList with
  | [] => ""
  | c :: cs => String.mk (c.toUpper :: cs.map Char.toLower)

/-- The numeric reading of a value, when Python
`isinstance(value, (float, int))` holds (booleans are ints in Python). -/
def numAsQ : Value → Option Frac
  | Value.int n => some (Frac.ofInt n)
  | Value.float q => some q
  | Value.bool b => some (Frac.ofInt (if b then 1 else 0))
  | _ => Option.none

/-- Extracts the contents of every element of a list when all elements are
dicts (the renderer test `all(isinstance(item, dict) for item in details)`). -/
def asDicts : List Value → Option (List (List (String × Value)))
  | [] => some []
  | Value.dict d :: vs => (asDicts vs).map (fun ds => d :: ds)
  | _ => Option.none

/-- Extracts the strings of a list when all elements are strings (the
renderer test `all(isinstance(item, str) for item in details)`). -/
def asStrs : List Value → Option (List String)
  | [] => some []
  | Value.str s :: vs => (asStrs vs).map (fun ss => s :: ss)
  | _ => Option.none

/-- A rendered tree (Rich `Tree`): a label and child subtrees. -/
inductive RTree where
  | node : String → List RTree → RTree
deriving Repr

/-- A cell of a two-column sub-table: either a bounded progress bar
(completed, total) or formatted text. -/
inductive SubVal where
  | bar : Frac → Frac → SubVal
  | text : String → SubVal
deriving Repr

/-- The rendered value placed next to a metric name: plain text, a bounded
progress bar (completed, total), a tree, a two-column sub-table, or a list
table (show-header flag, column headers, rows of formatted cells). -/
inductive Cell where
  | text : String → Cell
  | bar : Frac → Frac → Cell
  | rtree : RTree → Cell
  | subTable : List (String × SubVal) → Cell
  | listTable : Bool → List String → List (List String) → Cell
deriving Repr

/-- A rendered category panel: the title and the two-column rows
(metric name, rendered value) of its table. -/
structure Panel where
  title : String
  rows : List (String × Cell)
deriving Repr

/-- One branch of the Disk Partitions tree: a dict partition becomes a node
labelled with the formatted Device and three leaf lines (Mount/Type/Opts,
read with `.get` whose missing-key default is `None`); anything else becomes
a leaf holding its `str()`. -/
def partitionNode : Value → RTree
  | Value.dict pd =>
    RTree.node (format_value (pyGet pd "Device" (Value.str "N/A")))
      [ RTree.node ("Mount: " ++ format_value (pyGet pd "Mountpoint" Value.none)) [],
        RTree.node ("Type: " ++ format_value (pyGet pd "FSType" Value.none)) [],
        RTree.node ("Opts: " ++ format_value (pyGet pd "Opts" Value.none)) [] ]
  | v => RTree.node (pyStr v) []

/-- One address record of the Network Interfaces tree. -/
def addrNode : Value → RTree
  | Value.dict ad =>
    RTree.node (format_value (pyGet ad "Family" Value.none) ++ ": " ++
        format_value (pyGet ad "Address" Value.none))
      [ RTree.node ("Netmask: " ++ format_value (pyGet ad "Netmask" Value.none)) [],
        RTree.node ("Broadcast: " ++ format_value (pyGet ad "Broadcast" Value.none)) [] ]
  | v => RTree.node (pyStr v) []

/-- One interface branch of the Network Interfaces tree. -/
def ifaceNode (iface : String) (addr_list : Value) : RTree :=
  match addr_list with
  | Value.list addrs => RTree.node iface (addrs.map addrNode)
  | v => RTree.node iface [RTree.node ("Unexpected data: " ++ pyStr v) []]

/-- A row cell of a nested-dict sub-table.  With `bar_on_percent` set (the
Virtual Memory / Swap Memory / Disk Usage special cases) a numeric "Percent"
entry becomes a 0-100 progress bar; every other entry is formatted text. -/
def sub_row (bar_on_percent : Bool) (sub_metric : String) (value : Value) : SubVal :=
  match bar_on_percent, numAsQ value with
  | true, some q =>
    if sub_metric = "Percent" then SubVal.bar q (Frac.ofInt 100)
    else SubVal.text (format_value value)
  | _, _ => SubVal.text (format_value value)

/-- One row of the list table built for a list of dicts: each column header
is looked up in the item with default "N/A" and formatted. -/
def rowFor (headers : List String) (item : List (String × Value)) : List String :=
  headers.map (fun h => format_value (pyGet item h (Value.str "N/A")))

/-- The table built for a non-empty list whose elements are all dicts:
column headers are the capitalized keys of the first element, and each
element contributes one row of cells looked up by those keys.  The empty
case never arises (the caller passes the contents of a non-empty list) and
returns a columnless table. -/
def listTableOf : List (List (String × Value)) → Cell
  | [] => Cell.listTable true [] []
  | d0 :: ds =>
    Cell.listTable true ((d0.map Prod.fst).map pyCapitalize)
      ((d0 :: ds).map (rowFor (d0.map Prod.fst)))

/-- The generic list rendering of the source (reached when the named
Disk Partitions special case does not apply): a table from the first
element when every element is a dict, a headerless single-column table when
every element is a string, a "No data available." row when the list is
empty, and a truncated textual summary for any other mixture. -/
def list_fallback_cell (l : List Value) : Cell :=
  match l with
  | [] => Cell.listTable true [] [["No data available."]]
  | _ :: _ =>
    match asDicts l with
    | some ds => listTableOf ds
    | Option.none =>
      match asStrs l with
      | some ss => Cell.listTable false [] (ss.map (fun s => [s]))
      | Option.none => Cell.text ("List: " ++ (pyStr (Value.list l)).take 100 ++ "...")

/-- The rendered value for one `(metric, details)` pair of
`create_panel_for_category`, following the branch structure of the source.
The source dispatches by a chain of `isinstance` tests whose conditions are
mutually exclusive across runtime types, so the embedding matches on the
type of `details` first and then applies the source conditions in order:
numbers named "Overall" under "CPU Stats" become a progress bar; a non-empty
list named "Disk Partitions" and a non-empty dict named "Network Interfaces"
become trees; other dicts become two-column sub-tables (with percent bars in
the Memory Stats / Disk Usage special cases); other lists become tables
(columns from the first element when all elements are dicts, headerless rows
when all are strings, a "No data available." row when empty, and a truncated
"List: ..." text for any other mixture); remaining scalars become formatted
text. -/
def renderCell (category_name metric : String) (details : Value) : Cell :=
  match details with
  | Value.float q =>
    if metric = "Overall" ∧ category_name = "CPU Stats" then Cell.bar q (Frac.ofInt 100)
    else Cell.text (format_value (Value.float q))
  | Value.int n =>
    if metric = "Overall" ∧ category_name = "CPU Stats" then Cell.bar (Frac.ofInt n) (Frac.ofInt 100)
    else Cell.text (format_value (Value.int n))
  | Value.bool b =>
    if metric = "Overall" ∧ category_name = "CPU Stats" then
      Cell.bar (Frac.ofInt (if b then 1 else 0)) (Frac.ofInt 100)
    else Cell.text (format_value (Value.bool b))
  | Value.dict d =>
    if metric = "Network Interfaces" ∧ d.isEmpty = false then
      Cell.rtree (RTree.node metric (d.map (fun p => ifaceNode p.1 p.2)))
    else if category_name = "Memory Stats" ∧ (metric = "Virtual Memory" ∨ metric = "Swap Memory") then
      Cell.subTable (d.map (fun p => (p.1, sub_row true p.1 p.2)))
    else if category_name = "Disk Stats" ∧ metric = "Disk Usage" then
      Cell.subTable (d.map (fun p => (p.1, sub_row true p.1 p.2)))
    else
      Cell.subTable (d.map (fun p => (p.1, sub_row false p.1 p.2)))
  | Value.list l =>
    if metric = "Disk Partitions" ∧ l.isEmpty = false then
      Cell.rtree (RTree.node metric (l.map partitionNode))
    else
      list_fallback_cell l
  | v => Cell.text (format_value v)

/-- Embedding of `create_panel_for_category`: one two-column row per
`(metric, details)` item of the category data, in iteration order, wrapped
in a panel titled with the category name. -/
def create_panel_for_category (category_name : String)
    (category_data : List (String × Value)) : Panel :=
  { title := category_name,
    rows := category_data.map (fun p => (p.1, renderCell category_name p.1 p.2)) }

/-- State-passing embedding of `create_panel_for_category`: the category
data is threaded as a mutable store, and the I/O effects performed are
logged.  Every operation of the source loop is a read of the store
(`category_data.items()`, `.get`, iteration) or a constructor call on a
fresh display object, so the store passes through and the effect log stays
empty. -/
def create_panel_for_category_st (category_name : String)
    (store : List (String × Value)) : Panel × List (String × Value) × List String :=
  let items := store
  let panel : Panel :=
    { title := category_name,
      rows := items.map (fun p => (p.1, renderCell category_name p.1 p.2)) }
  (panel, store, [])

/-- The outcomes of the external data sources the collector consults during
one run: each field is either the gathered value or the message of the
exception the source raised.  `cpuStats` through `networkStats` and
`otherStats` stand for the bodies of the corresponding gather functions,
whose psutil calls are not guarded inside those functions; `temperatures`,
`fans`, `gpus` and `cpuInfo` are the sub-sources that their gather functions
guard internally. -/
structure SysEnv where
  cpuStats : Except String Value
  memoryStats : Except String Value
  diskStats : Except String Value
  networkStats : Except String Value
  temperatures : Except String Value
  fans : Except String Value
  gpus : Except String Value
  cpuInfo : Option (Except String Value)
  otherStats : Except String Value

/-- Embedding of `gather_sensor_stats`: each of the two sub-sources is
wrapped in its own try/except, degrading to the string "N/A" on failure; the
function itself never raises. -/
def gather_sensor_stats (env : SysEnv) : Value :=
  Value.dict
    [ ("temperatures", match env.temperatures with
        | Except.ok v => v
        | Except.error _ => Value.str "N/A"),
      ("fans", match env.fans with
        | Except.ok v => v
        | Except.error _ => Value.str "N/A") ]

/-- Embedding of `gather_gpu_stats`: the GPU query is guarded, degrading to
a one-element list holding an error string (a missing GPUtil module is the
`Except.ok` of an empty list). -/
def gather_gpu_stats (env : SysEnv) : Value :=
  match env.gpus with
  | Except.ok v => v
  | Except.error e => Value.list [Value.str ("Error getting GPU stats: " ++ e)]

/-- Embedding of `gather_cpu_info_details`: an absent cpuinfo module yields
an empty dict, a raising query yields a single-entry error dict. -/
def gather_cpu_info_details (env : SysEnv) : Value :=
  match env.cpuInfo with
  | Option.none => Value.dict []
  | some (Except.ok v) => v
  | some (Except.error e) => Value.dict [("error", Value.str e)]

/-- The snapshot produced when an exception reaches the single try/except of
`gather_system_stats`. -/
def errorSnapshot (e : String) : Value :=
  Value.dict [("error", Value.str ("Error gathering system stats: " ++ e))]

/-- Embedding of `gather_system_stats`: the eight categories are collected
sequentially inside one try/except.  The CPU, memory, disk, network and
other gatherers have no guard of their own, so an exception from any of them
reaches the outer handler and replaces the whole snapshot with the
single-entry error dict; the sensor, GPU and CPU-info gatherers never raise. -/
def gather_system_stats (env : SysEnv) : Value :=
  match env.cpuStats with
  | Except.error e => errorSnapshot e
  | Except.ok cpu =>
    match env.memoryStats with
    | Except.error e => errorSnapshot e
    | Except.ok mem =>
      match env.diskStats with
      | Except.error e => errorSnapshot e
      | Except.ok disk =>
        match env.networkStats with
        | Except.error e => errorSnapshot e
        | Except.ok net =>
          let sensors := gather_sensor_stats env
          let gpu := gather_gpu_stats env
          let info := gather_cpu_info_details env
          match env.otherStats with
          | Except.error e => errorSnapshot e
          | Except.ok other =>
            Value.dict
              [ ("CPU Stats", cpu), ("Memory Stats", mem), ("Disk Stats", disk),
                ("Network Stats", net), ("Sensor Stats", sensors), ("GPU Stats", gpu),
                ("CPU Info", info), ("Other Stats", other) ]

/-- Indexing a value with a string key, as `value[key]` behaves inside the
insight generator: a binding for the key when the value is a dict that has
one; `Option.none` stands for the KeyError/TypeError raised otherwise. -/
def dictFind : Value → String → Option Value
  | Value.dict d, k => lookupKey d k
  | _, _ => Option.none

/-- The three-step path lookup of `generate_insights` followed by the
numeric comparison: `Option.none` is any exception on the way (a missing
key, indexing a non-dict, or comparing a non-number with an int), and a
successful lookup returns the value together with its numeric reading. -/
def getNumPath (ss : Value) (k1 k2 k3 : String) : Option (Value × Frac) := do
  let v1 ← dictFind ss k1
  let v2 ← dictFind v1 k2
  let v3 ← dictFind v2 k3
  let q ← numAsQ v3
  pure (v3, q)

/-- The CPU insight rule: fires exactly when the overall CPU percent
exceeds 80. -/
def cpuInsight (v : Value) (q : Frac) : List String :=
  if Frac.ofInt 80 < q then ["High CPU usage detected: " ++ pyStr v ++ "%"] else []

/-- The memory insight rule: fires exactly when the virtual-memory percent
exceeds 80. -/
def memInsight (v : Value) (q : Frac) : List String :=
  if Frac.ofInt 80 < q then ["Memory usage is high at " ++ pyStr v ++ "%"] else []

/-- The disk insight rule: fires exactly when the disk-usage percent
exceeds 90. -/
def diskInsight (v : Value) (q : Frac) : List String :=
  if Frac.ofInt 90 < q then ["Disk almost full: " ++ pyStr v ++ "% used"] else []

/-- Embedding of `generate_insights`: the three hardcoded paths are scanned
in order inside a single try/except whose handler returns the insights
accumulated so far, so the first failing path silently ends the scan. -/
def generate_insights (system_stats : Value) : List String :=
  match getNumPath system_stats "CPU Stats" "CPU Usage" "Overall" with
  | Option.none => []
  | some (v1, q1) =>
    match getNumPath system_stats "Memory Stats" "Virtual Memory" "Percent" with
    | Option.none => cpuInsight v1 q1
    | some (v2, q2) =>
      match getNumPath system_stats "Disk Stats" "Disk Usage" "Percent" with
      | Option.none => cpuInsight v1 q1 ++ memInsight v2 q2
      | some (v3, q3) => cpuInsight v1 q1 ++ memInsight v2 q2 ++ diskInsight v3 q3

/-- The configured chat client. -/
structure OpenAIClient where
  api_key : String
  organization : Option String

/-- Embedding of `get_openai_client`: reads the key and organization from the
process environment and returns no client when the key is unset or empty
(Python falsiness of `api_key`). -/
def get_openai_client (env : String → Option String) : Option OpenAIClient :=
  match env "OPENAI_API_KEY" with
  | Option.none => Option.none
  | some k => if k = "" then Option.none else some ⟨k, env "OPENAI_API_ORG_ID"⟩

/-- Concatenation of the streamed chunk contents, stopping at the first
chunk whose content is `None` — the accumulation loop of `query_gpt`. -/
def collect_stream : List (Option String) → String
  | [] => ""
  | Option.none :: _ => ""
  | some c :: rest => c ++ collect_stream rest

/-- Embedding of `query_gpt`.  `stream` is the chunk sequence the chat
endpoint would return if called.  The result pairs the returned string with
a flag recording whether the chat-completion endpoint was invoked: with no
client configured the function returns the literal message before any
request is built. -/
def query_gpt (env : String → Option String) (stream : List (Option String))
    (_system_stats : Value) (_user_query : String) : String × Bool :=
  match get_openai_client env with
  | Option.none => ("OpenAI API key not configured.", false)
  | some _ => ((collect_stream stream).trim, true)

/-- A collection environment whose CPU gatherer raises while every other
source succeeds. -/
def envCpuBoom : SysEnv :=
  { cpuStats := Except.error "boom", memoryStats := Except.ok (Value.dict []),
    diskStats := Except.ok (Value.dict []), networkStats := Except.ok (Value.dict []),
    temperatures := Except.ok (Value.dict []), fans := Except.ok (Value.dict []),
    gpus := Except.ok (Value.list []), cpuInfo := Option.none,
    otherStats := Except.ok (Value.dict []) }

/-- A collection environment where only the temperature sub-source fails. -/
def envSensorDown : SysEnv :=
  { envCpuBoom with
    cpuStats := Except.ok (Value.dict [])
    temperatures := Except.error "sensor down" }

/-- The flat snapshot of the end-to-end scenario: the category data holds
"Overall" directly, without the "CPU Usage" level the program collects. -/
def flatOverallSnapshot : Value :=
  Value.dict [("CPU Stats", Value.dict [("Overall", Value.float ⟨923, 10⟩)])]

/-- The snapshot with the overall CPU percent at the path the insight
generator actually reads. -/
def nestedOverallSnapshot : Value :=
  Value.dict [("CPU Stats",
    Value.dict [("CPU Usage", Value.dict [("Overall", Value.float ⟨923, 10⟩)])])]

/-- A snapshot with only the memory path present, above its threshold. -/
def memoryOnlySnapshot : Value :=
  Value.dict [("Memory Stats",
    Value.dict [("Virtual Memory", Value.dict [("Percent", Value.float ⟨95, 1⟩)])])]

/-- A snapshot with all three insight paths present and above threshold
(CPU 92.3, memory 95.0, disk 95.5). -/
def fullThresholdSnapshot : Value :=
  Value.dict
    [ ("CPU Stats",
        Value.dict [("CPU Usage", Value.dict [("Overall", Value.float ⟨923, 10⟩)])]),
      ("Memory Stats",
        Value.dict [("Virtual Memory", Value.dict [("Percent", Value.float ⟨95, 1⟩)])]),
      ("Disk Stats",
        Value.dict [("Disk Usage", Value.dict [("Percent", Value.float ⟨191, 2⟩)])]) ]

/-! ## Helper lemmas -/

/-- Whatever value the byte-formatter loop is started on, it ends with a
two-decimal rendering followed by one of the remaining units or the final
"PB". -/
lemma format_bytes_loop_shape (us : List String) (q : Frac) :
    ∃ r : Frac, ∃ u, u ∈ us ++ ["PB"] ∧ format_bytes_loop q us = fmt2 r ++ " " ++ u := by
  induction us generalizing q with
  | nil =>
    refine ⟨q, "PB", by simp, ?_⟩
    rw [String.append_assoc]
    rfl
  | cons u us ih =>
    by_cases h : q.blt (Frac.ofInt 1024) = true
    · exact ⟨q, u, by simp, by simp [format_bytes_loop, h]⟩
    · obtain ⟨r, u2, hm, he⟩ := ih q.div1024
      refine ⟨r, u2, ?_, ?_⟩
      · simp only [List.mem_append, List.mem_cons] at hm ⊢
        tauto
      · simp [format_bytes_loop, h, he]

/-- Extraction after wrapping: a list of dict contents wrapped back into
values is recognized by `asDicts`. -/
lemma asDicts_map_dict (ds : List (List (String × Value))) :
    asDicts (ds.map Value.dict) = some ds := by
  induction ds with
  | nil => rfl
  | cons d ds ih => simp [asDicts, ih]

/-- Rendering a non-empty list of dicts under any metric other than
"Disk Partitions" yields the first-element-keyed table. -/
lemma renderCell_dicts_table (cn m : String) (d0 : List (String × Value))
    (rest : List (List (String × Value))) (hm : m ≠ "Disk Partitions") :
    renderCell cn m (Value.list ((d0 :: rest).map Value.dict)) =
      Cell.listTable true ((d0.map Prod.fst).map pyCapitalize)
        ((d0 :: rest).map (rowFor (d0.map Prod.fst))) := by
  have h1 := asDicts_map_dict (d0 :: rest)
  rw [List.map_cons] at h1
  simp [renderCell, hm, list_fallback_cell, listTableOf, h1]

/-! ## Claims -/

/-- C4.  For every integer passed to the leaf value formatter: above 1024
the output is the byte-size string of the successive-division formatter,
which is a two-decimal rendering ending in one of the units B/KB/MB/GB/TB/PB;
at or below 1024 the output is the plain decimal string. -/
theorem format_value_int_spec (v : Int) :
    (1024 < v →
      format_value (Value.int v) = format_bytes (Frac.ofInt v) ∧
      ∃ r : Frac, ∃ u, u ∈ ["B", "KB", "MB", "GB", "TB", "PB"] ∧
        format_bytes (Frac.ofInt v) = fmt2 r ++ " " ++ u) ∧
    (v ≤ 1024 → format_value (Value.int v) = toString v) := by
  constructor
  · intro hv
    refine ⟨by simp [format_value, hv], ?_⟩
    simpa [format_bytes] using format_bytes_loop_shape ["B", "KB", "MB", "GB", "TB"] (Frac.ofInt v)
  · intro hv
    simp [format_value, not_lt.mpr hv]

/-- Witness for C4 at 1048576 (byte-formatted) and 7 (plain). -/
theorem format_value_int_spec_witness :
    format_value (Value.int 1048576) = format_bytes (Frac.ofInt 1048576) ∧
    format_value (Value.int 7) = "7" :=
  ⟨((format_value_int_spec 1048576).1 (by decide)).1,
   ((format_value_int_spec 7).2 (by decide)).trans (by decide)⟩

/-- C6.  A sequence longer than five elements is formatted as the
comma-and-space join of the string forms of its first five elements plus a
suffix reporting the true length; shorter sequences fall through to the
default string form, untouched by the truncation rule. -/
theorem format_value_list_spec (l : List Value) :
    (5 < l.length →
      format_value (Value.list l) =
        String.intercalate ", " ((l.take 5).map pyStr) ++
          " ... (" ++ toString l.length ++ " items)") ∧
    (l.length ≤ 5 → format_value (Value.list l) = pyStr (Value.list l)) := by
  constructor
  · intro h
    simp [format_value, h]
  · intro h
    simp [format_value, not_lt.mpr h]

/-- Witness for C6 at a six-element and a two-element list of ints. -/
theorem format_value_list_spec_witness :
    format_value (Value.list [Value.int 1, Value.int 2, Value.int 3,
        Value.int 4, Value.int 5, Value.int 6]) = "1, 2, 3, 4, 5 ... (6 items)" ∧
    format_value (Value.list [Value.int 1, Value.int 2]) = "[1, 2]" :=
  ⟨((format_value_list_spec _).1 (by decide)).trans (by decide),
   ((format_value_list_spec _).2 (by decide)).trans (by decide)⟩

/-- C8.  Rendering preserves order: the metric-name column of the produced
table is exactly the key sequence of the category mapping, in iteration
order. -/
theorem render_order_preserving (category_name : String)
    (category_data : List (String × Value)) :
    ((create_panel_for_category category_name category_data).rows).map Prod.fst =
      category_data.map Prod.fst := by
  simp [create_panel_for_category]

/-- C9.  The renderer has no effects beyond constructing display objects:
in the state-passing embedding the threaded category data comes back
unchanged, the effect log is empty, and the produced panel is the pure
render of the inputs. -/
theorem renderer_no_side_effects (category_name : String)
    (category_data : List (String × Value)) :
    create_panel_for_category_st category_name category_data =
      (create_panel_for_category category_name category_data,
        category_data, ([] : List String)) := rfl

/-- C7.  With the chat-API credential unset (or empty, which Python
treats the same), the query operation returns exactly the literal
configuration message and the chat endpoint is never invoked. -/
theorem query_gpt_without_key (env : String → Option String)
    (stream : List (Option String)) (ss : Value) (uq : String)
    (h : env "OPENAI_API_KEY" = Option.none ∨ env "OPENAI_API_KEY" = some "") :
    query_gpt env stream ss uq = ("OpenAI API key not configured.", false) := by
  unfold query_gpt get_openai_client
  rcases h with h | h
  · rw [h]
  · rw [h]
    simp

/-- C5.  Rendering a non-empty sequence whose elements are all mappings is
total even with heterogeneous keys across entries: the table takes its
columns from the keys of the first entry only, in that entry's key order,
and has one row per element.  (The embedding is a total function — every
operation the source performs on this branch, including `item.get` with a
default, is non-raising — so producing this table is the non-raising
behaviour the claim asks for.) -/
theorem render_list_of_dicts_table (category_name metric : String)
    (d0 : List (String × Value)) (rest : List (List (String × Value)))
    (hm : metric ≠ "Disk Partitions") :
    renderCell category_name metric (Value.list ((d0 :: rest).map Value.dict)) =
      Cell.listTable true ((d0.map Prod.fst).map pyCapitalize)
        ((d0 :: rest).map (rowFor (d0.map Prod.fst))) ∧
    ((d0 :: rest).map (rowFor (d0.map Prod.fst))).length = (d0 :: rest).length :=
  ⟨renderCell_dicts_table category_name metric d0 rest hm, by simp⟩

/-- Witness for C5: two entries with disjoint keys still render, columns
taken from the first entry. -/
theorem render_list_of_dicts_table_witness :
    renderCell "Other Stats" "Users"
        (Value.list [Value.dict [("A", Value.int 1)], Value.dict [("B", Value.int 2)]]) =
      Cell.listTable true ["A"] [["1"], ["N/A"]] :=
  ((render_list_of_dicts_table "Other Stats" "Users" [("A", Value.int 1)]
      [[("B", Value.int 2)]] (by decide)).1).trans rfl

/-- C10.  In the table built for a non-empty list of mappings, an entry
lacking one of the column keys taken from the first entry renders the
literal string "N/A" in the corresponding cell, and the entry still
contributes its row. -/
theorem missing_column_key_renders_na (category_name metric : String)
    (d0 : List (String × Value)) (rest : List (List (String × Value)))
    (item : List (String × Value)) (j : Nat) (k : String)
    (hm : metric ≠ "Disk Partitions")
    (hmem : item ∈ d0 :: rest)
    (hk : (d0.map Prod.fst)[j]? = some k)
    (habs : lookupKey item k = Option.none) :
    renderCell category_name metric (Value.list ((d0 :: rest).map Value.dict)) =
      Cell.listTable true ((d0.map Prod.fst).map pyCapitalize)
        ((d0 :: rest).map (rowFor (d0.map Prod.fst))) ∧
    rowFor (d0.map Prod.fst) item ∈ (d0 :: rest).map (rowFor (d0.map Prod.fst)) ∧
    (rowFor (d0.map Prod.fst) item)[j]? = some "N/A" := by
  refine ⟨renderCell_dicts_table category_name metric d0 rest hm,
    List.mem_map_of_mem _ hmem, ?_⟩
  have hcell : format_value (pyGet item k (Value.str "N/A")) = "N/A" := by
    unfold pyGet
    rw [habs]
    rfl
  unfold rowFor
  rw [List.getElem?_map, hk]
  simpa using hcell

/-- Witness for C10: the second entry lacks the first entry's key "A" and
its cell reads "N/A". -/
theorem missing_column_key_renders_na_witness :
    (rowFor ["A"] [("B", Value.int 2)])[0]? = some "N/A" :=
  (missing_column_key_renders_na "Other Stats" "Users" [("A", Value.int 1)]
    [[("B", Value.int 2)]] [("B", Value.int 2)] 0 "A"
    (by decide) (by simp) rfl rfl).2.2

/-- Witness for C7 in an empty environment. -/
theorem query_gpt_without_key_witness :
    query_gpt (fun _ => Option.none) [] (Value.dict []) "hello" =
      ("OpenAI API key not configured.", false) :=
  query_gpt_without_key (fun _ => Option.none) [] (Value.dict []) "hello" (Or.inl rfl)

/-- C1 (counterexample).  On the Snapshot of the claim the insight
generator emits no insight at all: the string the claim promises requires
the value at the path CPU Stats / CPU Usage / Overall, and in the flat
Snapshot the intermediate "CPU Usage" level is missing, so the lookup
raises and the handler returns the empty list. -/
theorem flat_overall_snapshot_yields_no_insight :
    generate_insights flatOverallSnapshot = [] := rfl

/-- C1 (amended).  For the Snapshot of the claim the renderer does mark
"Overall" as a bounded (total 100) progress indicator, but the insight
generator emits nothing for it; the promised insight string is emitted for
the Snapshot carrying the value one level deeper, at
CPU Stats / CPU Usage / Overall, where the generator actually reads. -/
theorem overall_bar_and_insight_path :
    create_panel_for_category "CPU Stats" [("Overall", Value.float ⟨923, 10⟩)] =
      { title := "CPU Stats",
        rows := [("Overall", Cell.bar ⟨923, 10⟩ (Frac.ofInt 100))] } ∧
    generate_insights flatOverallSnapshot = [] ∧
    generate_insights nestedOverallSnapshot = ["High CPU usage detected: 92.3%"] :=
  ⟨rfl, rfl, by decide⟩

/-- C2 (counterexample).  A raised exception inside the CPU gatherer does
not degrade only that category: there is no per-category guard for it, so
the exception reaches the single collector-level handler and the whole
Snapshot becomes the single-entry error mapping — the other categories,
though their sources succeeded, are absent. -/
theorem cpu_failure_replaces_snapshot :
    gather_system_stats envCpuBoom =
      Value.dict [("error", Value.str "Error gathering system stats: boom")] ∧
    dictFind (gather_system_stats envCpuBoom) "Memory Stats" = Option.none :=
  ⟨rfl, rfl⟩

/-- C2 (amended).  Collection failure granularity as the code implements
it: an exception from the CPU, memory, disk, network or other gatherers —
which have no guard of their own — replaces the entire Snapshot with the
single-entry error mapping; only the internally guarded sources degrade
locally, e.g. a failing temperature or fan sub-source becomes the "N/A"
placeholder inside Sensor Stats while the other sensor entry is still
collected, and when the five unguarded gatherers succeed the Snapshot
contains all eight categories whatever the guarded sources did. -/
theorem gather_failure_granularity (env : SysEnv) :
    (∀ e, env.cpuStats = Except.error e → gather_system_stats env = errorSnapshot e) ∧
    (∀ c e, env.cpuStats = Except.ok c → env.memoryStats = Except.error e →
      gather_system_stats env = errorSnapshot e) ∧
    (∀ c m e, env.cpuStats = Except.ok c → env.memoryStats = Except.ok m →
      env.diskStats = Except.error e → gather_system_stats env = errorSnapshot e) ∧
    (∀ c m d e, env.cpuStats = Except.ok c → env.memoryStats = Except.ok m →
      env.diskStats = Except.ok d → env.networkStats = Except.error e →
      gather_system_stats env = errorSnapshot e) ∧
    (∀ c m d n e, env.cpuStats = Except.ok c → env.memoryStats = Except.ok m →
      env.diskStats = Except.ok d → env.networkStats = Except.ok n →
      env.otherStats = Except.error e → gather_system_stats env = errorSnapshot e) ∧
    (∀ c m d n o, env.cpuStats = Except.ok c → env.memoryStats = Except.ok m →
      env.diskStats = Except.ok d → env.networkStats = Except.ok n →
      env.otherStats = Except.ok o →
      gather_system_stats env = Value.dict
        [ ("CPU Stats", c), ("Memory Stats", m), ("Disk Stats", d),
          ("Network Stats", n), ("Sensor Stats", gather_sensor_stats env),
          ("GPU Stats", gather_gpu_stats env),
          ("CPU Info", gather_cpu_info_details env), ("Other Stats", o) ]) ∧
    (∀ e, env.temperatures = Except.error e →
      dictFind (gather_sensor_stats env) "temperatures" = some (Value.str "N/A")) ∧
    (∀ v, env.fans = Except.ok v →
      dictFind (gather_sensor_stats env) "fans" = some v) ∧
    (∀ e, env.fans = Except.error e →
      dictFind (gather_sensor_stats env) "fans" = some (Value.str "N/A")) ∧
    (∀ v, env.temperatures = Except.ok v →
      dictFind (gather_sensor_stats env) "temperatures" = some v) := by
  refine ⟨?_, ?_, ?_, ?_, ?_, ?_, ?_, ?_, ?_, ?_⟩
  · intro e h
    simp [gather_system_stats, h]
  · intro c e h1 h2
    simp [gather_system_stats, h1, h2]
  · intro c m e h1 h2 h3
    simp [gather_system_stats, h1, h2, h3]
  · intro c m d e h1 h2 h3 h4
    simp [gather_system_stats, h1, h2, h3, h4]
  · intro c m d n e h1 h2 h3 h4 h5
    simp [gather_system_stats, h1, h2, h3, h4, h5]
  · intro c m d n o h1 h2 h3 h4 h5
    simp [gather_system_stats, h1, h2, h3, h4, h5]
  · intro e h
    simp [gather_sensor_stats, dictFind, lookupKey, h]
  · intro v h
    simp [gather_sensor_stats, dictFind, lookupKey, h]
  · intro e h
    simp [gather_sensor_stats, dictFind, lookupKey, h]
  · intro v h
    simp [gather_sensor_stats, dictFind, lookupKey, h]

/-- Witness for the amended C2: with every unguarded gatherer succeeding
and the temperature sub-source failing, all eight categories are present
and only the temperatures entry degrades to "N/A". -/
theorem gather_failure_granularity_witness :
    gather_system_stats envSensorDown = Value.dict
      [ ("CPU Stats", Value.dict []), ("Memory Stats", Value.dict []),
        ("Disk Stats", Value.dict []), ("Network Stats", Value.dict []),
        ("Sensor Stats", gather_sensor_stats envSensorDown),
        ("GPU Stats", gather_gpu_stats envSensorDown),
        ("CPU Info", gather_cpu_info_details envSensorDown),
        ("Other Stats", Value.dict []) ] ∧
    dictFind (gather_sensor_stats envSensorDown) "temperatures" =
      some (Value.str "N/A") ∧
    dictFind (gather_sensor_stats envSensorDown) "fans" = some (Value.dict []) := by
  have h := gather_failure_granularity envSensorDown
  exact ⟨h.2.2.2.2.2.1 (Value.dict []) (Value.dict []) (Value.dict []) (Value.dict [])
      (Value.dict []) rfl rfl rfl rfl rfl,
    h.2.2.2.2.2.2.1 "sensor down" rfl,
    h.2.2.2.2.2.2.2.1 (Value.dict []) rfl⟩

/-- C3 (counterexample).  The three threshold rules do not fire
independently: on a Snapshot where the memory path is present with 95.0
(above its threshold) but the CPU path is missing, the generator emits
nothing, because the single exception handler wrapping all three rules
aborts the scan at the failing CPU lookup. -/
theorem missing_cpu_path_suppresses_memory_insight :
    getNumPath memoryOnlySnapshot "Memory Stats" "Virtual Memory" "Percent" =
      some (Value.float ⟨95, 1⟩, ⟨95, 1⟩) ∧
    Frac.ofInt 80 < (⟨95, 1⟩ : Frac) ∧
    generate_insights memoryOnlySnapshot = [] :=
  ⟨rfl, by decide, rfl⟩

/-- C3 (amended).  The generator scans the CPU, memory and disk paths in
that fixed order inside one exception handler: while paths resolve to
numbers, each rule fires exactly when its threshold is exceeded
(CPU > 80, memory > 80, disk > 90); the first missing or non-numeric path
is tolerated silently but ends the scan, returning only the insights
accumulated before it. -/
theorem generate_insights_characterization (ss : Value) :
    (getNumPath ss "CPU Stats" "CPU Usage" "Overall" = Option.none →
      generate_insights ss = []) ∧
    (∀ v1 q1, getNumPath ss "CPU Stats" "CPU Usage" "Overall" = some (v1, q1) →
      (getNumPath ss "Memory Stats" "Virtual Memory" "Percent" = Option.none →
        generate_insights ss = cpuInsight v1 q1) ∧
      (∀ v2 q2, getNumPath ss "Memory Stats" "Virtual Memory" "Percent" = some (v2, q2) →
        (getNumPath ss "Disk Stats" "Disk Usage" "Percent" = Option.none →
          generate_insights ss = cpuInsight v1 q1 ++ memInsight v2 q2) ∧
        (∀ v3 q3, getNumPath ss "Disk Stats" "Disk Usage" "Percent" = some (v3, q3) →
          generate_insights ss =
            cpuInsight v1 q1 ++ memInsight v2 q2 ++ diskInsight v3 q3))) := by
  constructor
  · intro h
    simp [generate_insights, h]
  · intro v1 q1 h1
    constructor
    · intro h2
      simp [generate_insights, h1, h2]
    · intro v2 q2 h2
      constructor
      · intro h3
        simp [generate_insights, h1, h2, h3]
      · intro v3 q3 h3
        simp [generate_insights, h1, h2, h3]

/-- Witness for the amended C3: all three paths present and above their
thresholds produce the three insight strings in order. -/
theorem generate_insights_characterization_witness :
    generate_insights fullThresholdSnapshot =
      ["High CPU usage detected: 92.3%", "Memory usage is high at 95.0%",
       "Disk almost full: 95.5% used"] := by
  have h := ((((generate_insights_characterization fullThresholdSnapshot).2
      (Value.float ⟨923, 10⟩) ⟨923, 10⟩ rfl).2
      (Value.float ⟨95, 1⟩) ⟨95, 1⟩ rfl).2
      (Value.float ⟨191, 2⟩) ⟨191, 2⟩ rfl)
  exact h.trans (by decide)

end SystemStats
